import Mathlib

/-!
Shallow embedding of the query-parameter parsing/validation, request-model
composition and response-wrapping logic of the `eodhp-stac-fastapi`
repository (Python), together with proofs about the embedded code.

Python strings are modelled as `String` / `List Char`; Python numbers
appearing in bounding boxes are modelled as `ℚ` (the concrete values in
scope are exact decimals); Python `None` is `Option.none`; raised
exceptions are `Except.error`.
-/

namespace StacFastApi

/-- Model of Python `str.split(sep)` for a one-character separator, over
the character list of the string.  Python semantics: `"".split(s) = [""]`,
separators at the ends produce empty segments. -/
def splitOnChar (sep : Char) : List Char → List (List Char)
  | [] => [[]]
  | c :: cs =>
    match splitOnChar sep cs with
    | [] => [[]]
    | h :: t => if c = sep then [] :: h :: t else (c :: h) :: t

/-- Python split of a `String`, returning `String` segments. -/
def pySplit (sep : Char) (s : String) : List String :=
  (splitOnChar sep s.data).map (fun l => ⟨l⟩)

/-- Joining a list of strings with `","` (inverse view of a comma split). -/
def joinComma (ss : List String) : String :=
  ⟨((ss.map String.data).intersperse [',']).flatten⟩

/-! ## `stac_fastapi.types.search` -/

/-- Embedding of `crop` (src/stac_fastapi/types/stac_fastapi/types/search.py):
`limit = 10_000; if v > limit: v = limit; return v`. -/
def crop (v : Nat) : Nat :=
  let limit := 10000
  if v > limit then limit else v

/-- Embedding of `str2list`: `if val: return val.split(","); return None`.
The argument is the optional query-string value; Python truthiness of a
string is "non-empty". -/
def str2list (val : Option String) : Option (List String) :=
  match val with
  | some v => if v ≠ "" then some (pySplit ',' v) else none
  | none => none

/-- Errors raised by the embedded Python code. -/
inductive PyErr
  | valueError (msg : String)
  | assertionError
  deriving DecidableEq, Repr

/-- The rational `n / 10^k`; scaled-decimal view of a parsed float. -/
def ratOf (n : Int) (k : Nat) : ℚ := (n : ℚ) / ((10 : ℚ) ^ k)

/-- A non-empty list of decimal digits, folded to the `Nat` it denotes. -/
def digitsToNat? (ds : List Char) : Option Nat :=
  if ds ≠ [] ∧ ds.all Char.isDigit then
    some (ds.foldl (fun acc c => acc * 10 + (c.toNat - 48)) 0)
  else none

/-- Model of Python `float(s)` restricted to plain decimal literals
`[-]digits[.digits]` (the only shapes the claims exercise); the value is
the exact rational.  Any other shape is a `ValueError` (`none`). -/
def parseFloat (s : String) : Option ℚ :=
  let (sign, body) :=
    match s.data with
    | '-' :: rest => ((-1 : Int), rest)
    | chars => ((1 : Int), chars)
  match splitOnChar '.' body with
  | [ipart] => (digitsToNat? ipart).map (fun ip => ratOf (sign * ip) 0)
  | [ipart, fpart] =>
    match digitsToNat? ipart, digitsToNat? fpart with
    | some ip, some fp =>
      some (ratOf (sign * (ip * 10 ^ fpart.length + fp)) fpart.length)
    | _, _ => none
  | _ => none

/-- `float(v)` inside the generator expression of `str2bbox`: a parse
failure raises `ValueError`. -/
def floatOrErr (v : String) : Except PyErr ℚ :=
  match parseFloat v with
  | some q => Except.ok q
  | none => Except.error (PyErr.valueError "could not convert string to float")

/-- Embedding of `str2bbox`:
`if x: t = tuple(float(v) for v in str2list(x)); assert len(t) == 4; return t`
`return None`.  A `float()` failure is a `ValueError`; the length assertion
failure is an `AssertionError`. -/
def str2bbox (x : String) : Except PyErr (Option (List ℚ)) :=
  if x ≠ "" then do
    let segs := (str2list (some x)).getD []
    let t ← segs.mapM floatOrErr
    if t.length = 4 then pure (some t) else Except.error PyErr.assertionError
  else pure none

instance {ε α : Type _} [DecidableEq ε] [DecidableEq α] : DecidableEq (Except ε α) := fun a b =>
  match a, b with
  | .ok x, .ok y => decidable_of_iff (x = y) (by simp)
  | .error x, .error y => decidable_of_iff (x = y) (by simp)
  | .ok _, .error _ => Decidable.isFalse (by simp)
  | .error _, .ok _ => Decidable.isFalse (by simp)

/-! ## `BaseCollectionSearchPostRequest.validate_bbox`
(src/stac_fastapi/extensions/.../collection_search/request.py) -/

/-- Error message raised for a reversed elevation pair (verbatim from source). -/
def elevMsg : String := "Maximum elevation must greater than minimum elevation"

/-- Error message raised for a reversed longitude pair; the source reuses this
very wording for the reversed-latitude branch as well (verbatim). -/
def lonMsg : String := "Maximum longitude must be greater than minimum longitude"

/-- Error message raised when the box leaves WGS84 bounds (verbatim from source). -/
def wgs84Msg : String := "Bounding box must be within (-180, -90, 180, 90)"

/-- The checks shared by the 4- and 6-value branches of `validate_bbox`:
longitude order, latitude order (with the longitude wording, as in the
source), then the WGS84 range check; on success the original value `v` is
returned unchanged. -/
def bboxChecks (xmin ymin xmax ymax : ℚ) (v : Option (List ℚ)) :
    Except String (Option (List ℚ)) :=
  if xmax < xmin then .error lonMsg
  else if ymax < ymin then .error lonMsg
  else if xmin < -180 ∨ ymin < -90 ∨ xmax > 180 ∨ ymax > 90 then .error wgs84Msg
  else .ok v

/-- Embedding of `BaseCollectionSearchPostRequest.validate_bbox`.  `none` and
the empty tuple are falsy in Python, so they skip every check; a length-4
tuple unpacks directly; any other length takes the 6-element unpacking, which
raises a `ValueError` unless the length is exactly 6 (unreachable for the
`BBox` type, which only admits lengths 4 and 6). -/
def validate_bbox (v : Option (List ℚ)) : Except String (Option (List ℚ)) :=
  match v with
  | none => .ok none
  | some l =>
    if l = [] then .ok (some l)
    else
      match l with
      | [xmin, ymin, xmax, ymax] => bboxChecks xmin ymin xmax ymax (some l)
      | [xmin, ymin, minElev, xmax, ymax, maxElev] =>
        if maxElev < minElev then .error elevMsg
        else bboxChecks xmin ymin xmax ymax (some l)
      | _ => .error "not enough values to unpack"

/-! ## `stac_fastapi.api.routes` -/

/-- The decoded JWT payload as far as `extract_headers` reads it: the
`workspaces` claim (`.get("workspaces", [])`) and the `user_services`
claim (`.get("user_services", None)`). -/
structure DecodedJwt where
  workspaces : List String
  user_services : Option String
  deriving DecidableEq, Repr

/-- Python truthiness of an optional string (`None` and `""` are falsy). -/
def pyTruthyStr : Option String → Bool
  | none => false
  | some s => s ≠ ""

/-- The value bound to the `X-Workspaces` header: Python `None` or a list. -/
inductive XWorkspaces
  | pyNone
  | pyList (ws : List String)
  deriving DecidableEq, Repr

/-- The headers dict built by `extract_headers`. -/
structure AuthHeaders where
  xWorkspaces : XWorkspaces
  xAuthenticated : Bool
  deriving DecidableEq, Repr

/-- Embedding of `extract_headers` (src/stac_fastapi/api/stac_fastapi/api/routes.py).
The load-bearing line is
`headers["X-Workspaces"] = workspaces.append(user_services) if user_services else workspaces`:
Python's `list.append` mutates its receiver and returns `None`, so when
`user_services` is truthy the header is bound to `None`, not to the
appended list; the mutated local list is discarded. -/
def extract_headers (credentials : Option DecodedJwt) : AuthHeaders :=
  match credentials with
  | some jwt =>
    if pyTruthyStr jwt.user_services then
      { xWorkspaces := XWorkspaces.pyNone, xAuthenticated := true }
    else
      { xWorkspaces := XWorkspaces.pyList jwt.workspaces, xAuthenticated := true }
  | none => { xWorkspaces := XWorkspaces.pyList [], xAuthenticated := false }

/-- Result of `_wrap_response`: a JSON response carrying the handler result
and a cache-control header, or the empty 204 No-Content response. -/
inductive WrapResult (α : Type _)
  | jsonResponse (content : α) (cacheControl : String)
  | noContent (cacheControl : String)
  deriving DecidableEq, Repr

/-- Python `s.startswith(pre)`. -/
def pyStartsWith (s pre : String) : Bool := pre.data.isPrefixOf s.data

/-- `url_path.split("/")[2]` as used by `_wrap_response`.  Whenever the path
starts with `"/catalogs/"` the split has at least three segments, so the
Python index never faults and agrees with `getD 2`. -/
def rootCatalogOf (p : String) : String := ⟨(splitOnChar '/' p.data).getD 2 []⟩

/-- Embedding of `_wrap_response` (same file; Lean does not allow a leading
underscore in the name).  `cacheControlCatalogsList` and
`cacheControlHeaders` are the environment-derived settings
`CACHE_CONTROL_CATALOGS_LIST` and `CACHE_CONTROL_HEADERS`.  Both inner GET
branches that fail their test fall through to the final
`max-age=0` response, exactly as the source's straight-line return does. -/
def wrap_response {α : Type _} (cacheControlCatalogsList : List String)
    (cacheControlHeaders : String) (resp : Option α) (verb : String)
    (url_path : String) : WrapResult α :=
  match resp with
  | some r =>
    if verb = "GET" then
      if pyStartsWith url_path "/catalogs/" then
        if rootCatalogOf url_path ∈ cacheControlCatalogsList then
          .jsonResponse r cacheControlHeaders
        else .jsonResponse r "max-age=0"
      else if url_path = "/" then .jsonResponse r cacheControlHeaders
      else .jsonResponse r "max-age=0"
    else .jsonResponse r "max-age=0"
  | none => .noContent "max-age=0"

/-! ## `BaseCollectionSearchPostRequest.validate_datetime` and the
`start_date` / `end_date` properties -/

/-- A parsed UTC instant (model of a Python `datetime`). -/
structure Dt where
  year : Nat
  month : Nat
  day : Nat
  hour : Nat
  minute : Nat
  second : Nat
  deriving DecidableEq, Repr

/-- Chronological key: order-isomorphic to the lexicographic order on the
fields, which is the chronological order on valid instants. -/
def Dt.key (d : Dt) : Nat :=
  ((((d.year * 13 + d.month) * 32 + d.day) * 24 + d.hour) * 60 + d.minute) * 60 + d.second

/-- Two decimal digit characters folded to a `Nat`. -/
def digit2 (a b : Char) : Option Nat :=
  if a.isDigit ∧ b.isDigit then some ((a.toNat - 48) * 10 + (b.toNat - 48)) else none

/-- Model of the external `stac_pydantic` `SearchDatetime.validate_strings`
(strict RFC 3339 parsing), restricted to UTC instants of the shape
`YYYY-MM-DDTHH:MM:SSZ` — the only shape the claims exercise; every other
input is rejected (`none`), which over-approximates strictness only on
formats outside the claims' scope. -/
def parseDt (s : String) : Option Dt :=
  match s.data with
  | [y1, y2, y3, y4, '-', mo1, mo2, '-', d1, d2, 'T',
     h1, h2, ':', mi1, mi2, ':', s1, s2, 'Z'] => do
    let yHi ← digit2 y1 y2
    let yLo ← digit2 y3 y4
    let mo ← digit2 mo1 mo2
    let d ← digit2 d1 d2
    let h ← digit2 h1 h2
    let mi ← digit2 mi1 mi2
    let sec ← digit2 s1 s2
    if 1 ≤ mo ∧ mo ≤ 12 ∧ 1 ≤ d ∧ d ≤ 31 ∧ h ≤ 23 ∧ mi ≤ 59 ∧ sec ≤ 59 then
      some ⟨yHi * 100 + yLo, mo, d, h, mi, sec⟩
    else none
  | _ => none

/-- Verbatim message of the too-many-segments `ValueError`. -/
def tooManyMsg : String :=
  "Invalid datetime range. Too many values.\n                Must match format: {begin_date}/{end_date}"

/-- Verbatim message of the reversed-range `ValueError`. -/
def rangeMsg : String :=
  "Invalid datetime range. Begin date after end date. Must match format: {begin_date}/{end_date}"

/-- Message standing for the pydantic validation error raised when a
segment fails `SearchDatetime.validate_strings`. -/
def invalidDtMsg : String := "Invalid datetime."

/-- `v if v and v != ".." else None` — segment normalisation inside
`validate_datetime`. -/
def pyNormSeg (v : String) : Option String :=
  if v ≠ "" ∧ v ≠ ".." then some v else none

/-- One element of the comprehension
`[SearchDatetime.validate_strings(v, strict=True) if v else None for v in values]`:
a `None` segment stays `None`, a present segment must parse or the
comprehension raises. -/
def parseSeg (o : Option String) : Except String (Option Dt) :=
  match o with
  | some s =>
    match parseDt s with
    | some d => Except.ok (some d)
    | none => Except.error invalidDtMsg
  | none => Except.ok none

/-- The comprehension itself: left-to-right, stopping at the first raise. -/
def parseSegs : List (Option String) → Except String (List (Option Dt))
  | [] => Except.ok []
  | o :: os =>
    match parseSeg o with
    | Except.error e => Except.error e
    | Except.ok d =>
      match parseSegs os with
      | Except.error e => Except.error e
      | Except.ok ds => Except.ok (d :: ds)

/-- Pure core of `validate_datetime`: split on `/`, normalise `""` and
`".."` segments to `None`, reject more than two segments, duplicate a
single segment into both bounds, strictly parse each remaining segment,
reject a reversed range (`dates[0] > dates[1]`); returns the parsed pair
`(dates[0], dates[1])`. -/
def dtBoundsOf (value : String) : Except String (Option Dt × Option Dt) :=
  let values := (pySplit '/' value).map pyNormSeg
  if values.length > 2 then .error tooManyMsg
  else
    let values := if values.length = 1 then values ++ values else values
    match parseSegs values with
    | .error e => .error e
    | .ok dates =>
      let d0 := dates.getD 0 none
      let d1 := dates.getD 1 none
      match d0, d1 with
      | some a, some b => if b.key < a.key then .error rangeMsg else .ok (d0, d1)
      | _, _ => .ok (d0, d1)

/-- The class-attribute slots of `BaseCollectionSearchPostRequest`:
`none` models "the class attribute has never been assigned" (pydantic
removes the declared private attributes from the class namespace). -/
structure ClsPrivate where
  sAttr : Option (Option Dt) := none
  eAttr : Option (Option Dt) := none
  deriving DecidableEq, Repr

/-- Embedding of `validate_datetime`: the computation is `dtBoundsOf`, and
the only state interaction is the pair of class-attribute writes
`cls._start_date = dates[0]`, `cls._end_date = dates[1]` on the success
path; the original string is returned unchanged. -/
def validate_datetime (cls : ClsPrivate) (value : String) :
    Except String (ClsPrivate × String) :=
  (dtBoundsOf value).map (fun b => ({ sAttr := some b.1, eAttr := some b.2 }, value))

/-- A validated `BaseCollectionSearchPostRequest` instance as far as the
claims read it: the `datetime` field and the per-instance
`__pydantic_private__` slots, initialised to the declared defaults
(`None`) and never written afterwards. -/
structure ModelInstance where
  datetime : Option String
  privStart : Option Dt := none
  privEnd : Option Dt := none
  deriving DecidableEq, Repr

/-- Python attribute lookup for `self._start_date` inside the `start_date`
property: once the validator has assigned the plain class attribute, class
lookup succeeds and shadows the instance's pydantic private slot; only
while the class attribute has never been assigned does `__getattr__` fall
back to the private slot. -/
def start_date (cls : ClsPrivate) (inst : ModelInstance) : Option Dt :=
  match cls.sAttr with
  | some v => v
  | none => inst.privStart

/-- `end_date` property; same lookup as `start_date`. -/
def end_date (cls : ClsPrivate) (inst : ModelInstance) : Option Dt :=
  match cls.eAttr with
  | some v => v
  | none => inst.privEnd

/-- Constructing a model whose `datetime` field is the given string runs
`validate_datetime` against the current class state. -/
def mkModel (cls : ClsPrivate) (datetime : String) :
    Except String (ClsPrivate × ModelInstance) :=
  (validate_datetime cls datetime).map (fun r => (r.1, { datetime := some r.2 }))

/-! ## `create_request_model` (src/stac_fastapi/api/stac_fastapi/api/models.py) -/

/-- A request-model class as `create_request_model` distinguishes them:
either an `APIRequest` subclass (GET, query-parameter style) or a pydantic
`BaseModel` subclass (POST, body style) carrying its `model_fields` as an
ordered list of (name, annotation/field-info) pairs.  The two base classes
are unrelated, so no class is a subclass of both. -/
inductive PyModel
  | api (name : String)
  | base (name : String) (fields : List (String × String))
  deriving DecidableEq, Repr

/-- `issubclass(m, APIRequest)`. -/
def PyModel.isApi : PyModel → Bool
  | .api _ => true
  | .base _ _ => false

/-- `issubclass(m, BaseModel)`. -/
def PyModel.isBase : PyModel → Bool
  | .api _ => false
  | .base _ _ => true

/-- Python dict assignment `d[k] = v`: overwrite in place when the key is
present (insertion order preserved), append otherwise. -/
def dictInsert (d : List (String × String)) (k : String) (v : String) :
    List (String × String) :=
  if d.any (fun p => p.1 = k) then
    d.map (fun p => if p.1 = k then (k, v) else p)
  else d ++ [(k, v)]

/-- The field-collection loop of the POST branch:
`for model in models: for k, field_info in model.model_fields.items(): fields[k] = ...`. -/
def collectFields (models : List PyModel) : List (String × String) :=
  models.foldl (fun fields m =>
    match m with
    | .api _ => fields
    | .base _ mf => mf.foldl (fun d p => dictInsert d p.1 p.2) fields) []

/-- The composed request model produced on success. -/
inductive ComposedModel
  | getModel (bases : List PyModel)
  | postModel (fields : List (String × String))
  deriving DecidableEq, Repr

/-- Verbatim message of the mixed-kind `TypeError`. -/
def mixedMsg : String := "Mixed Request Model types. Check extension request types."

/-- Embedding of `create_request_model`: `models = [base_model] +
extension_models + mixins`; all `APIRequest` → `attr.make_class` over all
bases; all `BaseModel` → collect every field into one dict (later models
overwriting earlier entries) and `create_model`; otherwise raise
`TypeError`. -/
def create_request_model (base_model : PyModel) (extension_models : List PyModel)
    (mixins : List PyModel) : Except String ComposedModel :=
  let models := base_model :: (extension_models ++ mixins)
  if models.all PyModel.isApi then
    .ok (ComposedModel.getModel models)
  else if models.all PyModel.isBase then
    .ok (ComposedModel.postModel (collectFields models))
  else .error mixedMsg

/-! ## The `cat_path` patterns (src/stac_fastapi/api/stac_fastapi/api/models.py)

`CatalogUri` declares `Path(..., regex=r"^([^/]+)(/catalogs/[^/]+)*$")` and
`CreateCatalogUri` declares `Path(..., regex=r"root$|(^([^/]+)(/catalogs/[^/]+)*$)")`.
The patterns are validated by pydantic v2's `pattern` constraint, which uses
unanchored search semantics (a match anywhere in the string, as with Rust's
`Regex::is_match` / Python's `re.search`); anchoring comes only from explicit
`^` / `$` in the pattern itself.  The regexes are embedded with a Brzozowski
derivative matcher over `List Char`. -/

/-- Regular expressions over characters; `chr p` matches a single character
satisfying `p`. -/
inductive RE
  | emp
  | eps
  | chr (p : Char → Bool)
  | cat (a b : RE)
  | alt (a b : RE)
  | star (a : RE)

/-- Does the regex accept the empty word? -/
def RE.nullable : RE → Bool
  | .emp => false
  | .eps => true
  | .chr _ => false
  | .cat a b => a.nullable && b.nullable
  | .alt a b => a.nullable || b.nullable
  | .star _ => true

/-- Brzozowski derivative with respect to one character. -/
def RE.deriv (r : RE) (c : Char) : RE :=
  match r with
  | .emp => .emp
  | .eps => .emp
  | .chr p => if p c then .eps else .emp
  | .cat a b =>
    if a.nullable then .alt (.cat (a.deriv c) b) (b.deriv c)
    else .cat (a.deriv c) b
  | .alt a b => .alt (a.deriv c) (b.deriv c)
  | .star a => .cat (a.deriv c) (.star a)

/-- Whole-word regex matching by iterated derivatives. -/
def reMatch (r : RE) : List Char → Bool
  | [] => r.nullable
  | c :: cs => reMatch (r.deriv c) cs

/-- A single literal character. -/
def litC (c : Char) : RE := .chr (fun d => d = c)

/-- A literal word. -/
def litW : List Char → RE
  | [] => .eps
  | c :: cs => .cat (litC c) (litW cs)

/-- `[^/]` -/
def notSlash : RE := .chr (fun c => c != '/')

/-- `[^/]+` -/
def seg : RE := .cat notSlash (.star notSlash)

/-- `([^/]+)(/catalogs/[^/]+)*` — the body of the anchored `cat_path`
pattern. -/
def catPathRE : RE := .cat seg (.star (.cat (litW "/catalogs/".data) seg))

/-- `root` — the left, start-unanchored alternative of the creation
pattern. -/
def rootRE : RE := litW "root".data

/-- The set of strings accepted for `CatalogUri.cat_path`: the pattern
`^([^/]+)(/catalogs/[^/]+)*$` is anchored on both sides, so an unanchored
search succeeds exactly on a whole-string match. -/
def catalogUriAccepts (s : String) : Bool := reMatch catPathRE s.data

/-- The set of strings accepted for `CreateCatalogUri.cat_path`: pattern
`root$|(^([^/]+)(/catalogs/[^/]+)*$)`.  Under search semantics the
alternation matches iff `root$` matches at some position — i.e. some
suffix of the string is exactly `root` — or the fully anchored right
alternative matches the whole string. -/
def createCatalogUriAccepts (s : String) : Bool :=
  s.data.tails.any (reMatch rootRE) || reMatch catPathRE s.data

/-! ## Helper lemmas -/

/-- `splitOnChar` never returns the empty list of segments. -/
theorem splitOnChar_ne_nil (sep : Char) (l : List Char) : splitOnChar sep l ≠ [] := by
  cases l with
  | nil => simp [splitOnChar]
  | cons c cs =>
    simp only [splitOnChar]
    cases splitOnChar sep cs with
    | nil => simp
    | cons h t =>
      by_cases hc : c = sep <;> simp [hc]

/-- Joining the segments of `splitOnChar` back with the separator
reconstructs the original character list. -/
theorem splitOnChar_join (sep : Char) (l : List Char) :
    ((splitOnChar sep l).intersperse [sep]).flatten = l := by
  induction l with
  | nil => simp [splitOnChar]
  | cons c cs ih =>
    simp only [splitOnChar]
    rcases hs : splitOnChar sep cs with _ | ⟨h, t⟩
    · exact absurd hs (splitOnChar_ne_nil sep cs)
    · rw [hs] at ih
      by_cases hc : c = sep
      · subst hc
        cases t <;> simpa [List.intersperse] using ih
      · simp only [if_neg hc]
        cases t <;> simpa [List.intersperse] using ih

/-- A leading separator contributes one empty segment. -/
theorem splitOnChar_sepCons (sep : Char) (l : List Char) :
    splitOnChar sep (sep :: l) = [] :: splitOnChar sep l := by
  rcases hs : splitOnChar sep l with _ | ⟨h, t⟩
  · exact absurd hs (splitOnChar_ne_nil sep l)
  · simp [splitOnChar, hs]

/-- A separator-free block followed by a separator is the first segment. -/
theorem splitOnChar_seg (sep : Char) (a l : List Char) (h : ∀ c ∈ a, ¬ c = sep) :
    splitOnChar sep (a ++ sep :: l) = a :: splitOnChar sep l := by
  induction a with
  | nil => simpa using splitOnChar_sepCons sep l
  | cons c a' ih =>
    have hc : ¬ c = sep := h c (by simp)
    have ih' := ih (fun x hx => h x (by simp [hx]))
    simp [splitOnChar, ih', hc]

theorem reMatch_emp (l : List Char) : reMatch .emp l = false := by
  induction l with
  | nil => rfl
  | cons c cs ih => simpa [reMatch, RE.deriv] using ih

theorem reMatch_eps (l : List Char) : reMatch .eps l = true ↔ l = [] := by
  cases l with
  | nil => simp [reMatch, RE.nullable]
  | cons c cs => simp [reMatch, RE.deriv, reMatch_emp]

theorem reMatch_alt (l : List Char) (a b : RE) :
    reMatch (.alt a b) l = (reMatch a l || reMatch b l) := by
  induction l generalizing a b with
  | nil => rfl
  | cons c cs ih => simpa [reMatch, RE.deriv] using ih (a.deriv c) (b.deriv c)

theorem reMatch_catEmp (l : List Char) (b : RE) : reMatch (.cat .emp b) l = false := by
  induction l with
  | nil => rfl
  | cons c cs ih => simpa [reMatch, RE.deriv, RE.nullable] using ih

theorem reMatch_catEps (l : List Char) (b : RE) :
    reMatch (.cat .eps b) l = reMatch b l := by
  cases l with
  | nil => simp [reMatch, RE.nullable]
  | cons c cs =>
    simp [reMatch, RE.deriv, RE.nullable, reMatch_alt, reMatch_catEmp]

theorem reMatch_litW (w : List Char) : ∀ l, reMatch (litW w) l = true ↔ l = w := by
  induction w with
  | nil =>
    intro l
    simpa [litW] using reMatch_eps l
  | cons c w' ih =>
    intro l
    cases l with
    | nil => simp [litW, reMatch, RE.nullable]
    | cons d ds =>
      by_cases hd : d = c
      · subst hd
        simp [litW, reMatch, RE.deriv, RE.nullable, litC, reMatch_catEps, ih ds]
      · simp [litW, reMatch, RE.deriv, RE.nullable, litC, hd, reMatch_catEmp]

/-- Some tail of `l` matches the literal word `w` iff `w` is a suffix of
`l`: the meaning of an end-anchored, start-unanchored search. -/
theorem tails_any_litW (w l : List Char) :
    l.tails.any (reMatch (litW w)) = true ↔ w <:+ l := by
  rw [List.any_eq_true]
  constructor
  · rintro ⟨t, ht, hm⟩
    rw [reMatch_litW w t] at hm
    subst hm
    exact (List.mem_tails _ _).mp ht
  · intro h
    exact ⟨w, (List.mem_tails _ _).mpr h, (reMatch_litW w w).mpr rfl⟩

/-- The `url_path.split("/")[2]` extraction of `_wrap_response` recovers the
top-level catalog name from any path of the shape `/catalogs/<name>/<rest>`
with a slash-free `<name>`. -/
theorem rootCatalogOf_concat (name rest : String) (h : ∀ c ∈ name.data, ¬ c = '/') :
    rootCatalogOf ("/catalogs/" ++ name ++ "/" ++ rest) = name := by
  have hx : "/catalogs/".data = '/' :: ("catalogs".data ++ ['/']) := rfl
  have hy : "/".data = ['/'] := rfl
  have hdata : ("/catalogs/" ++ name ++ "/" ++ rest).data
      = '/' :: ("catalogs".data ++ ('/' :: (name.data ++ ('/' :: rest.data)))) := by
    simp [String.data_append, hx, hy, List.append_assoc]
  have hcat : ∀ c ∈ "catalogs".data, ¬ c = '/' := by decide
  rw [rootCatalogOf, hdata, splitOnChar_sepCons, splitOnChar_seg '/' _ _ hcat,
    splitOnChar_seg '/' _ _ h]
  rfl

/-! ## Claim theorems -/

/-- C1: at the failing input — a decoded bearer token carrying the
non-empty workspaces claim `["team1"]` and the non-null service-account
claim `"svc-workspace"` — `extract_headers` binds `X-Workspaces` to Python
`None` (the return value of `list.append`), not to the merged list
`["team1", "svc-workspace"]` required by the claim; `X-Authenticated` is
`True` there, and without a token the function returns the empty workspace
list with `X-Authenticated = False` as claimed. -/
theorem extract_headers_append_bug :
    extract_headers (some ⟨["team1"], some "svc-workspace"⟩) =
      { xWorkspaces := XWorkspaces.pyNone, xAuthenticated := true } ∧
    extract_headers (some ⟨["team1"], some "svc-workspace"⟩) ≠
      { xWorkspaces := XWorkspaces.pyList ["team1", "svc-workspace"],
        xAuthenticated := true } ∧
    extract_headers none =
      { xWorkspaces := XWorkspaces.pyList [], xAuthenticated := false } := by
  decide

/-- C2: for a non-`None` handler result, `_wrap_response` attaches the
configured positive cache-control header to `GET /`, attaches `max-age=0`
to a `GET /catalogs/<name>/...` whose top-level catalog `<name>` is not in
the configured allow-list, and attaches `max-age=0` to every non-GET verb
regardless of path; a `None` result becomes a 204 empty-body response. -/
theorem wrap_response_policy {α : Type} (cl : List String) (ch : String) :
    (∀ r : α, wrap_response cl ch (some r) "GET" "/" = .jsonResponse r ch) ∧
    (∀ (r : α) (name rest : String), (∀ c ∈ name.data, ¬ c = '/') → name ∉ cl →
      wrap_response cl ch (some r) "GET" ("/catalogs/" ++ name ++ "/" ++ rest) =
        .jsonResponse r "max-age=0") ∧
    (∀ (r : α) (verb p : String), verb ≠ "GET" →
      wrap_response cl ch (some r) verb p = .jsonResponse r "max-age=0") ∧
    (∀ verb p : String, wrap_response cl ch (none : Option α) verb p =
      .noContent "max-age=0") := by
  refine ⟨?_, ?_, ?_, ?_⟩
  · intro r
    simp [wrap_response, show pyStartsWith "/" "/catalogs/" = false from by decide]
  · intro r name rest hseg hmem
    have hpre : pyStartsWith ("/catalogs/" ++ name ++ "/" ++ rest) "/catalogs/" = true := by
      rw [pyStartsWith, List.isPrefixOf_iff_prefix]
      refine ⟨(name ++ "/" ++ rest).data, ?_⟩
      simp [String.data_append]
    rw [wrap_response]
    simp only [if_pos rfl, hpre, if_pos, rootCatalogOf_concat name rest hseg, if_neg hmem,
      ite_true]
  · intro r verb p hv
    simp [wrap_response, hv]
  · intro verb p
    rfl

/-- Witness for C2 at the allow-list `["supported-datasets"]` and the
default cache header string. -/
theorem wrap_response_policy_witness :
    wrap_response ["supported-datasets"] "max-age=300, stale-while-revalidate=300"
      (some (1 : Nat)) "GET" ("/catalogs/" ++ "private-x" ++ "/" ++ "collections") =
      .jsonResponse 1 "max-age=0" ∧
    wrap_response ["supported-datasets"] "max-age=300, stale-while-revalidate=300"
      (some (1 : Nat)) "POST" "/collections" = .jsonResponse 1 "max-age=0" ∧
    wrap_response ["supported-datasets"] "max-age=300, stale-while-revalidate=300"
      (some (1 : Nat)) "GET" "/" =
      .jsonResponse 1 "max-age=300, stale-while-revalidate=300" ∧
    wrap_response ["supported-datasets"] "max-age=300, stale-while-revalidate=300"
      (none : Option Nat) "DELETE" "/collections" = .noContent "max-age=0" :=
  ⟨(wrap_response_policy _ _).2.1 1 "private-x" "collections" (by decide) (by decide),
   (wrap_response_policy _ _).2.2.1 1 "POST" "/collections" (by decide),
   (wrap_response_policy _ _).1 1,
   (wrap_response_policy _ _).2.2.2 "DELETE" "/collections"⟩

/-- C3 counterexample: a comma-separated string of 6 floats is NOT
accepted by `str2bbox` — it fails the `assert len(t) == 4` with an
`AssertionError` instead of yielding the 6-tuple the claim describes. -/
theorem str2bbox_six_floats_cx :
    str2bbox "0,0,0,1,1,1" = Except.error PyErr.assertionError := rfl

/-- C3 (amended): `str2bbox` turns a non-empty comma-separated string
whose segments all parse as floats into the parsed tuple exactly when
there are 4 of them, and raises the length assertion otherwise (so
6-float strings are rejected); `validate_bbox`, on an already-structured
bbox, enforces `zmax ≥ zmin` (6-value case, checked first), `xmax ≥ xmin`,
`ymax ≥ ymin` (this branch reuses the longitude wording of the source),
and the WGS84 range for `xmin,ymin,xmax,ymax`, each violation failing
with the corresponding message, and returns every bbox satisfying all
constraints unchanged. -/
theorem bbox_processing :
    (∀ (x : String) (l : List ℚ), x ≠ "" →
      (pySplit ',' x).mapM floatOrErr = Except.ok l →
      str2bbox x = (if l.length = 4 then Except.ok (some l)
                    else Except.error PyErr.assertionError)) ∧
    (∀ a b zmin c d zmax : ℚ, zmax < zmin →
      validate_bbox (some [a, b, zmin, c, d, zmax]) = .error elevMsg) ∧
    (∀ a b c d : ℚ, c < a → validate_bbox (some [a, b, c, d]) = .error lonMsg) ∧
    (∀ a b c d : ℚ, ¬ c < a → d < b → validate_bbox (some [a, b, c, d]) = .error lonMsg) ∧
    (∀ a b c d : ℚ, ¬ c < a → ¬ d < b → (a < -180 ∨ b < -90 ∨ c > 180 ∨ d > 90) →
      validate_bbox (some [a, b, c, d]) = .error wgs84Msg) ∧
    (∀ a b c d : ℚ, ¬ c < a → ¬ d < b → ¬ (a < -180 ∨ b < -90 ∨ c > 180 ∨ d > 90) →
      validate_bbox (some [a, b, c, d]) = .ok (some [a, b, c, d])) ∧
    (∀ a b zmin c d zmax : ℚ, ¬ zmax < zmin → ¬ c < a → ¬ d < b →
      ¬ (a < -180 ∨ b < -90 ∨ c > 180 ∨ d > 90) →
      validate_bbox (some [a, b, zmin, c, d, zmax]) = .ok (some [a, b, zmin, c, d, zmax])) := by
  refine ⟨?_, ?_, ?_, ?_, ?_, ?_, ?_⟩
  · intro x l hx hmap
    have hsegs : (str2list (some x)).getD [] = pySplit ',' x := by
      simp [str2list, hx]
    rw [str2bbox, if_pos hx, hsegs]
    show (pySplit ',' x).mapM floatOrErr >>= _ = _
    rw [hmap]
    rfl
  · intro a b zmin c d zmax h
    simp [validate_bbox, bboxChecks, h]
  · intro a b c d h
    simp [validate_bbox, bboxChecks, h]
  · intro a b c d h1 h2
    simp [validate_bbox, bboxChecks, h1, h2]
  · intro a b c d h1 h2 h3
    simp [validate_bbox, bboxChecks, h1, h2, h3]
  · intro a b c d h1 h2 h3
    simp [validate_bbox, bboxChecks, h1, h2, h3]
  · intro a b zmin c d zmax h0 h1 h2 h3
    simp [validate_bbox, bboxChecks, h0, h1, h2, h3]

/-- Witness for C3: the 4-float parse, the longitude-order failure at
`(10, 20, 5, 25)`, the elevation and range failures, and two fully valid
boxes returned unchanged. -/
theorem bbox_processing_witness :
    str2bbox "10,20,5,25" =
      Except.ok (some [ratOf 10 0, ratOf 20 0, ratOf 5 0, ratOf 25 0]) ∧
    validate_bbox (some [10, 20, 5, 25]) = .error lonMsg ∧
    validate_bbox (some [0, 0, 5, 1, 1, 2]) = .error elevMsg ∧
    validate_bbox (some [0, 0, 1, 100]) = .error wgs84Msg ∧
    validate_bbox (some [-10, -20, 10, 20]) = .ok (some [-10, -20, 10, 20]) ∧
    validate_bbox (some [-10, -20, 0, 10, 20, 100]) = .ok (some [-10, -20, 0, 10, 20, 100]) := by
  refine ⟨?_, ?_, ?_, ?_, ?_, ?_⟩
  · have h := bbox_processing.1 "10,20,5,25"
      [ratOf 10 0, ratOf 20 0, ratOf 5 0, ratOf 25 0] (by decide) rfl
    simpa using h
  · exact bbox_processing.2.2.1 10 20 5 25 (by norm_num)
  · exact bbox_processing.2.1 0 0 5 1 1 2 (by norm_num)
  · exact bbox_processing.2.2.2.2.1 0 0 1 100 (by norm_num) (by norm_num) (by norm_num)
  · exact bbox_processing.2.2.2.2.2.1 (-10) (-20) 10 20 (by norm_num) (by norm_num) (by norm_num)
  · exact bbox_processing.2.2.2.2.2.2 (-10) (-20) 0 10 20 100
      (by norm_num) (by norm_num) (by norm_num) (by norm_num)

/-- C4: `validate_datetime` rejects more than two `/`-separated segments
with the too-many-values error; a single segment is duplicated into
identical start and end bounds; when both bounds resolve to timestamps
with start after end it fails with the range-order error; and on success
it returns the original string unchanged and stores the parsed pair where
the `start_date` / `end_date` properties retrieve it. -/
theorem validate_datetime_spec :
    (∀ (cls : ClsPrivate) (v : String), 2 < (pySplit '/' v).length →
      validate_datetime cls v = .error tooManyMsg) ∧
    (∀ (cls : ClsPrivate) (v : String) (st : ClsPrivate) (s' : String),
      (pySplit '/' v).length = 1 →
      validate_datetime cls v = .ok (st, s') → st.sAttr = st.eAttr) ∧
    (∀ (cls : ClsPrivate) (v s1 s2 t1 t2 : String) (a b : Dt),
      pySplit '/' v = [s1, s2] →
      pyNormSeg s1 = some t1 → parseDt t1 = some a →
      pyNormSeg s2 = some t2 → parseDt t2 = some b →
      b.key < a.key →
      validate_datetime cls v = .error rangeMsg) ∧
    (∀ (cls : ClsPrivate) (v : String) (st : ClsPrivate) (s' : String),
      validate_datetime cls v = .ok (st, s') →
      s' = v ∧ ∃ p, dtBoundsOf v = .ok p ∧
        (∀ inst : ModelInstance, start_date st inst = p.1 ∧ end_date st inst = p.2)) := by
  refine ⟨?_, ?_, ?_, ?_⟩
  · intro cls v hlen
    have hv : ((pySplit '/' v).map pyNormSeg).length > 2 := by simpa using hlen
    rw [validate_datetime]
    simp only [dtBoundsOf, if_pos hv]
    rfl
  · intro cls v st s' hlen hok
    obtain ⟨s0, hs0⟩ := List.length_eq_one.mp hlen
    rw [validate_datetime] at hok
    simp only [dtBoundsOf, hs0, List.map_cons, List.map_nil, List.length_cons,
      List.length_nil] at hok
    norm_num at hok
    cases hn : parseSeg (pyNormSeg s0) with
    | error e => simp [parseSegs, hn, Except.map] at hok
    | ok d =>
      simp only [parseSegs, hn] at hok
      cases d with
      | none =>
        simp [Except.map] at hok
        obtain ⟨hst, -⟩ := hok
        rw [← hst]
      | some a =>
        simp [Except.map, List.getD] at hok
        obtain ⟨hst, -⟩ := hok
        rw [← hst]
  · intro cls v s1 s2 t1 t2 a b hsp hn1 hp1 hn2 hp2 hlt
    rw [validate_datetime]
    simp only [dtBoundsOf, hsp, List.map_cons, List.map_nil, List.length_cons,
      List.length_nil]
    norm_num
    simp [parseSegs, parseSeg, hn1, hn2, hp1, hp2, List.getD, hlt]
    rfl
  · intro cls v st s' hok
    cases hb : dtBoundsOf v with
    | error e =>
      rw [validate_datetime, hb] at hok
      simp [Except.map] at hok
    | ok p =>
      rw [validate_datetime, hb] at hok
      simp [Except.map] at hok
      obtain ⟨hst, hs⟩ := hok
      exact ⟨hs.symm, p, rfl, fun inst => by rw [← hst]; exact ⟨rfl, rfl⟩⟩

/-- Witness for C4: the three-segment error on `"a/b/c"`, the reversed
range error, the single-instant duplication, and a successful closed
interval with its stored bounds. -/
theorem validate_datetime_spec_witness :
    validate_datetime ⟨none, none⟩ "a/b/c" = .error tooManyMsg ∧
    validate_datetime ⟨none, none⟩
        "2018-03-18T12:31:12Z/2018-02-12T00:00:00Z" = .error rangeMsg ∧
    (validate_datetime ⟨none, none⟩ "2018-02-12T23:20:50Z" =
        .ok (⟨some (some ⟨2018, 2, 12, 23, 20, 50⟩), some (some ⟨2018, 2, 12, 23, 20, 50⟩)⟩,
          "2018-02-12T23:20:50Z") →
      (⟨some (some ⟨2018, 2, 12, 23, 20, 50⟩), some (some ⟨2018, 2, 12, 23, 20, 50⟩)⟩ :
        ClsPrivate).sAttr =
      (⟨some (some ⟨2018, 2, 12, 23, 20, 50⟩), some (some ⟨2018, 2, 12, 23, 20, 50⟩)⟩ :
        ClsPrivate).eAttr) ∧
    ("2018-02-12T00:00:00Z/2018-03-18T12:31:12Z" =
        "2018-02-12T00:00:00Z/2018-03-18T12:31:12Z" ∧
      ∃ p, dtBoundsOf "2018-02-12T00:00:00Z/2018-03-18T12:31:12Z" = .ok p ∧
        (∀ inst : ModelInstance,
          start_date ⟨some (some ⟨2018, 2, 12, 0, 0, 0⟩), some (some ⟨2018, 3, 18, 12, 31, 12⟩)⟩
            inst = p.1 ∧
          end_date ⟨some (some ⟨2018, 2, 12, 0, 0, 0⟩), some (some ⟨2018, 3, 18, 12, 31, 12⟩)⟩
            inst = p.2)) :=
  ⟨validate_datetime_spec.1 ⟨none, none⟩ "a/b/c" (by decide),
   validate_datetime_spec.2.2.1 ⟨none, none⟩
     "2018-03-18T12:31:12Z/2018-02-12T00:00:00Z"
     "2018-03-18T12:31:12Z" "2018-02-12T00:00:00Z"
     "2018-03-18T12:31:12Z" "2018-02-12T00:00:00Z"
     ⟨2018, 3, 18, 12, 31, 12⟩ ⟨2018, 2, 12, 0, 0, 0⟩
     (by decide) (by decide) (by decide) (by decide) (by decide) (by decide),
   validate_datetime_spec.2.1 ⟨none, none⟩ "2018-02-12T23:20:50Z" _ _ (by decide),
   validate_datetime_spec.2.2.2 ⟨none, none⟩
     "2018-02-12T00:00:00Z/2018-03-18T12:31:12Z"
     ⟨some (some ⟨2018, 2, 12, 0, 0, 0⟩), some (some ⟨2018, 3, 18, 12, 31, 12⟩)⟩
     "2018-02-12T00:00:00Z/2018-03-18T12:31:12Z" (by decide)⟩

/-- C5: `create_request_model` raises the type-mismatch `TypeError`
whenever the combined model list contains both an `APIRequest`-style and a
`BaseModel`-style schema, and succeeds on every homogeneous list. -/
theorem create_request_model_kinds (base : PyModel) (exts mixins : List PyModel) :
    ((∃ m ∈ base :: (exts ++ mixins), m.isApi = true) →
     (∃ m ∈ base :: (exts ++ mixins), m.isBase = true) →
     create_request_model base exts mixins = .error mixedMsg) ∧
    ((∀ m ∈ base :: (exts ++ mixins), m.isApi = true) →
     ∃ c, create_request_model base exts mixins = .ok c) ∧
    ((∀ m ∈ base :: (exts ++ mixins), m.isBase = true) →
     ∃ c, create_request_model base exts mixins = .ok c) := by
  refine ⟨?_, ?_, ?_⟩
  · rintro ⟨ma, hma, ha⟩ ⟨mb, hmb, hb⟩
    have h1 : (base :: (exts ++ mixins)).all PyModel.isApi = false := by
      rw [List.all_eq_false]
      exact ⟨mb, hmb, by cases mb <;> simp_all [PyModel.isApi, PyModel.isBase]⟩
    have h2 : (base :: (exts ++ mixins)).all PyModel.isBase = false := by
      rw [List.all_eq_false]
      exact ⟨ma, hma, by cases ma <;> simp_all [PyModel.isApi, PyModel.isBase]⟩
    simp [create_request_model, h1, h2]
  · intro h
    have h1 : (base :: (exts ++ mixins)).all PyModel.isApi = true :=
      List.all_eq_true.mpr h
    refine ⟨ComposedModel.getModel (base :: (exts ++ mixins)), ?_⟩
    simp [create_request_model, h1]
  · intro h
    have h1 : (base :: (exts ++ mixins)).all PyModel.isApi = false := by
      rw [List.all_eq_false]
      refine ⟨base, by simp, ?_⟩
      have hb := h base (by simp)
      cases base <;> simp_all [PyModel.isApi, PyModel.isBase]
    have h2 : (base :: (exts ++ mixins)).all PyModel.isBase = true :=
      List.all_eq_true.mpr h
    refine ⟨ComposedModel.postModel (collectFields (base :: (exts ++ mixins))), ?_⟩
    simp [create_request_model, h1, h2]

/-- Witness for C5: one mixed pair fails with the type-mismatch error;
an all-GET pair and an all-POST pair both compose. -/
theorem create_request_model_kinds_witness :
    create_request_model (.api "G") [.base "P" []] [] = .error mixedMsg ∧
    (∃ c, create_request_model (.api "G") [.api "H"] [] = .ok c) ∧
    (∃ c, create_request_model (.base "P" []) [.base "Q" []] [] = .ok c) :=
  ⟨(create_request_model_kinds (.api "G") [.base "P" []] []).1
      ⟨.api "G", by simp, rfl⟩ ⟨.base "P" [], by simp, rfl⟩,
   (create_request_model_kinds (.api "G") [.api "H"] []).2.1
      (by intro m hm; fin_cases hm <;> rfl),
   (create_request_model_kinds (.base "P" []) [.base "Q" []] []).2.2
      (by intro m hm; fin_cases hm <;> rfl)⟩

/-- C6 counterexample: composing two body-style schemas that declare the
field `x` with the conflicting types `int` and `str` does NOT fail — the
composition succeeds and the later schema's declaration replaces the
earlier one's. -/
theorem create_request_model_shadow_cx :
    create_request_model (.base "Base" [("x", "int")]) [] [.base "Mix" [("x", "str")]] =
      .ok (.postModel [("x", "str")]) := by decide

/-- C6 (amended): in body-style composition a field declared by two input
schemas is silently resolved in favour of the later schema — its
(annotation, field-info) pair overwrites the earlier one's in the field
dict and no configuration error is raised, even when the types conflict. -/
theorem create_request_model_shadow (n t1 t2 bn mn : String) :
    create_request_model (.base bn [(n, t1)]) [] [.base mn [(n, t2)]] =
      .ok (.postModel [(n, t2)]) := by
  simp [create_request_model, PyModel.isApi, PyModel.isBase, collectFields, dictInsert]

/-- C7 counterexample: `"a/b/root"` — a string merely ending in `root` —
IS accepted by the creation pattern, while it is outside the anchored
`cat_path` language and differs from the literal `"root"`; the claim's
"no other string is accepted for creation" is therefore false. -/
theorem cat_path_root_suffix_cx :
    createCatalogUriAccepts "a/b/root" = true ∧
    catalogUriAccepts "a/b/root" = false ∧
    "a/b/root" ≠ "root" := by decide

/-- C7 (amended): existing-catalog references accept exactly the language
of `^([^/]+)(/catalogs/[^/]+)*$`; the creation pattern
`root$|(^([^/]+)(/catalogs/[^/]+)*$)`, whose left alternative is anchored
only at the end, accepts exactly that language together with every string
ending in `root` (and `root` itself already lies in the anchored
language). -/
theorem cat_path_language (s : String) :
    (createCatalogUriAccepts s = true ↔
      (catalogUriAccepts s = true ∨ "root".data <:+ s.data)) ∧
    catalogUriAccepts "root" = true := by
  constructor
  · unfold createCatalogUriAccepts catalogUriAccepts rootRE
    rw [Bool.or_eq_true, tails_any_litW]
    exact or_comm
  · decide

/-- C8: `crop` returns every positive value at most 10000 unchanged and
clamps every larger value to 10000, raising no error. -/
theorem crop_clamps (v : Nat) (hv : 0 < v) :
    (v ≤ 10000 → crop v = v) ∧ (10000 < v → crop v = 10000) := by
  constructor <;> intro h <;> (simp only [crop]; split <;> omega)

/-- Witness for C8 at the spec's example inputs 50000 and 5. -/
theorem crop_clamps_witness : crop 50000 = 10000 ∧ crop 5 = 5 :=
  ⟨(crop_clamps 50000 (by norm_num)).2 (by norm_num),
   (crop_clamps 5 (by norm_num)).1 (by norm_num)⟩

/-- C9: for every non-empty string `str2list` returns the ordered
comma-separated segments (joining them back with commas reconstructs the
input); absent (`None`) and empty-string inputs both return `None`, never
the empty list; and `"a,b,c"` yields `["a","b","c"]`. -/
theorem str2list_spec :
    (∀ v : String, v ≠ "" →
      str2list (some v) = some (pySplit ',' v) ∧ joinComma (pySplit ',' v) = v) ∧
    str2list none = none ∧
    str2list (some "") = none ∧
    str2list (some "a,b,c") = some ["a", "b", "c"] := by
  refine ⟨fun v hv => ⟨by simp [str2list, hv], ?_⟩, rfl, rfl, by decide⟩
  show (⟨(((pySplit ',' v).map String.data).intersperse [',']).flatten⟩ : String) = v
  have hmap : (pySplit ',' v).map String.data = splitOnChar ',' v.data := by
    simp only [pySplit, List.map_map]
    exact List.map_id _
  rw [hmap, splitOnChar_join]

/-- Witness for C9 at the input `"a,b,c"`. -/
theorem str2list_spec_witness :
    str2list (some "a,b,c") = some (pySplit ',' "a,b,c") ∧
      joinComma (pySplit ',' "a,b,c") = "a,b,c" :=
  str2list_spec.1 "a,b,c" (by decide)

/-- C10: `validate_datetime` stores the parsed bounds on the class object,
so after two models are validated in sequence the `start_date` /
`end_date` properties of BOTH instances return the second string's parsed
bounds — the first model does not retain its own parse. -/
theorem class_state_shadowing
    (st0 : ClsPrivate) (d1 d2 : String) (st1 st2 : ClsPrivate)
    (m1 m2 : ModelInstance)
    (h1 : mkModel st0 d1 = .ok (st1, m1))
    (h2 : mkModel st1 d2 = .ok (st2, m2)) :
    ∃ p, dtBoundsOf d2 = .ok p ∧
      start_date st2 m1 = p.1 ∧ start_date st2 m2 = p.1 ∧
      end_date st2 m1 = p.2 ∧ end_date st2 m2 = p.2 := by
  cases hb : dtBoundsOf d2 with
  | error e =>
    rw [mkModel, validate_datetime, hb] at h2
    simp [Except.map] at h2
  | ok p =>
    rw [mkModel, validate_datetime, hb] at h2
    simp [Except.map] at h2
    obtain ⟨hst, -⟩ := h2
    exact ⟨p, rfl, by rw [← hst]; exact ⟨rfl, rfl, rfl, rfl⟩⟩

/-- Witness for C10: validating 2018-02-12 and then 2019-06-01 leaves both
instances reporting the 2019 bounds. -/
theorem class_state_shadowing_witness :
    ∃ p, dtBoundsOf "2019-06-01T12:30:00Z" = .ok p ∧
      start_date ⟨some (some ⟨2019, 6, 1, 12, 30, 0⟩), some (some ⟨2019, 6, 1, 12, 30, 0⟩)⟩
        ⟨some "2018-02-12T00:00:00Z", none, none⟩ = p.1 ∧
      start_date ⟨some (some ⟨2019, 6, 1, 12, 30, 0⟩), some (some ⟨2019, 6, 1, 12, 30, 0⟩)⟩
        ⟨some "2019-06-01T12:30:00Z", none, none⟩ = p.1 ∧
      end_date ⟨some (some ⟨2019, 6, 1, 12, 30, 0⟩), some (some ⟨2019, 6, 1, 12, 30, 0⟩)⟩
        ⟨some "2018-02-12T00:00:00Z", none, none⟩ = p.2 ∧
      end_date ⟨some (some ⟨2019, 6, 1, 12, 30, 0⟩), some (some ⟨2019, 6, 1, 12, 30, 0⟩)⟩
        ⟨some "2019-06-01T12:30:00Z", none, none⟩ = p.2 :=
  class_state_shadowing ⟨none, none⟩ "2018-02-12T00:00:00Z" "2019-06-01T12:30:00Z"
    ⟨some (some ⟨2018, 2, 12, 0, 0, 0⟩), some (some ⟨2018, 2, 12, 0, 0, 0⟩)⟩
    ⟨some (some ⟨2019, 6, 1, 12, 30, 0⟩), some (some ⟨2019, 6, 1, 12, 30, 0⟩)⟩
    ⟨some "2018-02-12T00:00:00Z", none, none⟩
    ⟨some "2019-06-01T12:30:00Z", none, none⟩
    (by decide) (by decide)

end StacFastApi
